import Mathlib

/-
Verification development for the multi-agent workflow repository.

The Python sources under src/ are shallowly embedded: pure string and
arithmetic processing becomes Lean functions over `List Char`, `Int` and
`Rat`; calls to external collaborators (the LLM completion service, the
geocoding / weather / date REST APIs, the Langfuse tracing client,
Python's `json.loads` and `ast.parse` standard-library routines) become
explicit oracles or are modelled on the input shapes reachable in this
codebase, with the modelling assumptions recorded in the doc comments.
Python `float` values are modelled as exact rationals; no theorem below
depends on binary floating-point rounding or on the text produced by
`%.10g` formatting.
-/

namespace MAW

/-! ## Character-level utilities shared by the tool embeddings -/

/-- The double-quote character. -/
def qmarkC : Char := Char.ofNat 34

/-- The apostrophe character. -/
def aposC : Char := Char.ofNat 39

/-- The opening-brace character. -/
def lbraceC : Char := Char.ofNat 123

/-- The closing-brace character. -/
def rbraceC : Char := Char.ofNat 125

/-- The backslash character. -/
def bslashC : Char := Char.ofNat 92

/-- The opening-parenthesis character. -/
def lparC : Char := '('

/-- The closing-parenthesis character. -/
def rparC : Char := ')'

/-- ASCII whitespace as matched by Python's regex class `\s` and stripped by
`str.strip()`: space, tab, newline, vertical tab, form feed, carriage return.
Unicode whitespace beyond ASCII is not modelled; no claim involves it. -/
def isPyWs (c : Char) : Bool :=
  c = ' ' || c = Char.ofNat 9 || c = Char.ofNat 10 || c = Char.ofNat 11 ||
  c = Char.ofNat 12 || c = Char.ofNat 13

/-- The character class of the validation regex
`^[0-9+\-*/().\s,a-zA-Z]+$` in `validate_math_expression`
(src/tools/operators/math_operator.py line 127).  Note that `%`, `[`, `]`
are not in the class. -/
def isMathChar (c : Char) : Bool :=
  c.isDigit || c = '+' || c = '-' || c = '*' || c = '/' || c = lparC ||
  c = rparC || c = '.' || isPyWs c || c = ',' || c.isAlpha

/-- Python `str.strip()` on a character list (ASCII whitespace). -/
def pyStrip (l : List Char) : List Char :=
  ((l.dropWhile isPyWs).reverse.dropWhile isPyWs).reverse

/-- A tool argument after JSON normalization: the string actually used, or a
non-string JSON value extracted from a JSON payload (Python would pass the
non-string object on to validation). -/
inductive ToolArg where
  | str (s : List Char)
  | nonstr
  deriving DecidableEq, Repr

/-- Embedding of `validate_math_expression`
(src/tools/operators/math_operator.py lines 104-134): reject empty or
non-string input, strip whitespace, reject an expression that is empty after
cleaning, that contains a character outside `isMathChar`, or whose
opening- and closing-parenthesis counts differ; otherwise return the
stripped expression.  Raising `ValueError msg` is embedded as
`Except.error msg`. -/
def validate_math_expression : ToolArg → Except (List Char) (List Char)
  | .nonstr => .error "Expression must be a non-empty string".data
  | .str e =>
    if e.isEmpty then .error "Expression must be a non-empty string".data
    else
      let s := pyStrip e
      if s.isEmpty then .error "Expression cannot be empty after cleaning".data
      else if !(s.all isMathChar) then
        .error "Expression contains invalid characters".data
      else if s.count lparC ≠ s.count rparC then
        .error "Unbalanced parentheses in expression".data
      else .ok s

/-! ## Operator registry (src/agent_factory.py) -/

/-- Embedding of `get_operator_agents` (src/agent_factory.py lines 191-210):
the list of delegation tools handed to the orchestrator executor, by tool
name.  The source builds exactly `[weather_operator, math_operator]`; the
datetime operator agent exists in src/operators/datetime_operator_agent.py
but is neither imported nor included. -/
def get_operator_agents : List String :=
  ["weather_operator", "math_operator"]

/-! ## ReAct loop controller (spec-modelled) and its configuration -/

/-- One model turn as classified by the loop's output parser. -/
inductive ModelTurn where
  | finalAnswer (text : String)
  | action (tool : String) (input : String)
  | malformed
  deriving DecidableEq, Repr

/-- Reason a loop run terminated. -/
inductive TermReason where
  | finalAnswer
  | maxIterations
  | parseErrorFail
  deriving DecidableEq, Repr

/-- Loop configuration (iteration budget and parse-error recovery flag),
mirroring the `AgentExecutor(max_iterations=..., handle_parsing_errors=...)`
keyword arguments in the source. -/
structure LoopConfig where
  maxIterations : Nat
  handleParsingErrors : Bool
  deriving DecidableEq, Repr

/-- The orchestrator executor configuration from `create_orchestrator_agent`
(src/agent_factory.py lines 386-395): `max_iterations=10`,
`handle_parsing_errors=True`. -/
def orchestratorConfig : LoopConfig :=
  { maxIterations := 10, handleParsingErrors := true }

/-- The operator executor configuration from `create_operator_agent`
(src/shared/agent_factory.py lines 124-133): `max_iterations=5`,
`handle_parsing_errors=True`. -/
def operatorConfig : LoopConfig :=
  { maxIterations := 5, handleParsingErrors := true }

/-- Result of one loop run: how many model turns were consumed and why the
run stopped. -/
structure LoopResult where
  iterations : Nat
  reason : TermReason
  deriving DecidableEq, Repr

/-- Modelled from the spec: the think-act-observe loop controller itself
(LangChain's `AgentExecutor._call`) is not part of this repository's src/;
only its configuration is.  Following spec section 4.1 steps 3-7: each
iteration consumes one model output; a `Final Answer` terminates with reason
`finalAnswer`; a malformed output with recovery enabled synthesizes an
Observation and continues, counting toward the iteration budget; a malformed
output without recovery terminates with an error; a valid action executes
and continues; the iteration budget is checked before the next iteration. -/
def runLoopFrom (cfg : LoopConfig) (outputs : Nat → ModelTurn) :
    Nat → Nat → LoopResult
  | i, 0 => { iterations := i, reason := .maxIterations }
  | i, fuel + 1 =>
    match outputs i with
    | .finalAnswer _ => { iterations := i + 1, reason := .finalAnswer }
    | .malformed =>
      if cfg.handleParsingErrors then runLoopFrom cfg outputs (i + 1) fuel
      else { iterations := i + 1, reason := .parseErrorFail }
    | .action _ _ => runLoopFrom cfg outputs (i + 1) fuel

/-- Run a loop from iteration 0 with the configured iteration budget. -/
def runLoop (cfg : LoopConfig) (outputs : Nat → ModelTurn) : LoopResult :=
  runLoopFrom cfg outputs 0 cfg.maxIterations

/-- A model that emits malformed output on every turn. -/
def alwaysMalformed : Nat → ModelTurn := fun _ => .malformed

/-! ## Flat JSON parsing (model of Python `json.loads` on reachable shapes) -/

/-- A JSON value as far as the tool normalization paths distinguish them:
a string, an integer, or some other scalar (float, boolean, null).  The
tools only ever use extracted string values; every non-string value flows
into the same "non-string argument" behaviour. -/
inductive JVal where
  | jstr (s : List Char)
  | jint (n : Int)
  | jother
  deriving DecidableEq, Repr

/-- JSON whitespace: space, tab, newline, carriage return. -/
def isJsonWs (c : Char) : Bool :=
  c = ' ' || c = Char.ofNat 9 || c = Char.ofNat 10 || c = Char.ofNat 13

/-- Drop leading JSON whitespace. -/
def jsonSkipWs (l : List Char) : List Char := l.dropWhile isJsonWs

/-- Scan a JSON string body up to the closing quote.  Escape sequences are
not modelled (a backslash fails the parse); no input exercised by a theorem
contains one. -/
def jsonTakeStr : List Char → Option (List Char × List Char)
  | [] => none
  | c :: cs =>
    if c = qmarkC then some ([], cs)
    else if c = bslashC then none
    else
      match jsonTakeStr cs with
      | some (s, r) => some (c :: s, r)
      | none => none

/-- Scan a JSON number, classifying it as an integer or another scalar. -/
def jsonTakeNum (l : List Char) : Option (JVal × List Char) :=
  let l' := if l.headD ' ' = '-' then l.tail else l
  let ds := l'.takeWhile Char.isDigit
  let r1 := l'.dropWhile Char.isDigit
  if ds.isEmpty then none
  else
    let n : Int := ds.foldl (fun acc c => acc * 10 + ((c.toNat : Int) - 48)) 0
    let n := if l.headD ' ' = '-' then -n else n
    match r1 with
    | c :: cs =>
      if c = '.' || c = 'e' || c = 'E' then
        -- a fractional or exponent part makes it a non-integer scalar
        some (.jother, cs.dropWhile (fun d => d.isDigit || d = '+' || d = '-' || d = '.' || d = 'e' || d = 'E'))
      else some (.jint n, r1)
    | [] => some (.jint n, r1)

/-- Scan a JSON scalar value: string, number, or the literals true, false,
null.  Containers nested inside an object are not modelled (the parse
fails); no claim depends on them. -/
def jsonTakeVal (l : List Char) : Option (JVal × List Char) :=
  match l with
  | [] => none
  | c :: cs =>
    if c = qmarkC then
      match jsonTakeStr cs with
      | some (s, r) => some (.jstr s, r)
      | none => none
    else if "true".data.isPrefixOf l then some (.jother, l.drop 4)
    else if "false".data.isPrefixOf l then some (.jother, l.drop 5)
    else if "null".data.isPrefixOf l then some (.jother, l.drop 4)
    else jsonTakeNum l

/-- Parse the members of a flat JSON object (after the opening brace),
returning the key/value pairs and the remainder after the closing brace. -/
def jsonMembers : Nat → List Char → Option (List (List Char × JVal) × List Char)
  | 0, _ => none
  | fuel + 1, l =>
    match jsonSkipWs l with
    | [] => none
    | c :: cs =>
      if c = qmarkC then
        match jsonTakeStr cs with
        | some (key, r1) =>
          match jsonSkipWs r1 with
          | [] => none
          | d :: ds =>
            if d = ':' then
              match jsonTakeVal (jsonSkipWs ds) with
              | some (v, r3) =>
                match jsonSkipWs r3 with
                | [] => none
                | e :: es =>
                  if e = ',' then
                    match jsonMembers fuel es with
                    | some (rest, r5) => some ((key, v) :: rest, r5)
                    | none => none
                  else if e = rbraceC then some ([(key, v)], es)
                  else none
              | none => none
            else none
        | none => none
      else none

/-- Model of Python `json.loads` restricted to flat objects with scalar
values (the shapes the tool normalization paths are exercised with).  The
whole input must be consumed, as `json.loads` requires. -/
def jsonParseFlatObj (s : List Char) : Option (List (List Char × JVal)) :=
  match jsonSkipWs s with
  | [] => none
  | c :: cs =>
    if c = lbraceC then
      match jsonSkipWs cs with
      | [] => none
      | d :: ds =>
        if d = rbraceC then
          if (jsonSkipWs ds).isEmpty then some [] else none
        else
          match jsonMembers (cs.length + 1) (d :: ds) with
          | some (obj, rest) =>
            if (jsonSkipWs rest).isEmpty then some obj else none
          | none => none
    else none

/-- Python dict lookup where later duplicate keys overwrite earlier ones. -/
def jsonLookupLast (key : List Char) (obj : List (List Char × JVal)) : Option JVal :=
  ((obj.filter (fun p => p.1 == key)).getLast?).map Prod.snd

/-- Python `expression.replace(chr(39), chr(34))`: every apostrophe becomes
a double quote. -/
def pyReplaceApos (l : List Char) : List Char :=
  l.map (fun c => if c = aposC then qmarkC else c)

/-- The literal prefix the source's first startswith test uses for the
calculate tool. -/
def calcPrefix1 : List Char :=
  lbraceC :: qmarkC :: ("expression".data ++ [qmarkC, ':'])

/-- The literal prefix of the source's second startswith test. -/
def calcPrefix2 : List Char :=
  lbraceC :: aposC :: ("expression".data ++ [aposC])

/-- Embedding of the JSON normalization step of `calculate`
(math_operator.py lines 172-187): only when the raw input starts with one
of the two literal prefixes, apostrophes are replaced by double quotes,
the result is parsed as JSON, and the value of key "expression" (when the
parse yields an object containing it) replaces the raw input; every failure
mode keeps the raw string. -/
def calcNormalize (s : List Char) : ToolArg :=
  if calcPrefix1.isPrefixOf s || calcPrefix2.isPrefixOf s then
    match jsonParseFlatObj (pyReplaceApos s) with
    | some obj =>
      match jsonLookupLast "expression".data obj with
      | some (.jstr v) => .str v
      | some _ => .nonstr
      | none => .str s
    | none => .str s
  else .str s

/-! ## Arithmetic expressions: AST, tokenizer, parser (model of ast.parse) -/

/-- Constants appearing in the restricted expression grammar.  Python
floats are modelled as exact rationals. -/
inductive PyConst where
  | int (n : Int)
  | float (q : ℚ)
  | bool (b : Bool)
  | pynone
  deriving DecidableEq, Repr

/-- The binary operators of `SAFE_OPERATORS` (math_operator.py lines
12-22). -/
inductive BOp where
  | add | sub | mul | div | floordiv | mod | pow
  deriving DecidableEq, Repr

/-- The unary operators of `SAFE_OPERATORS`. -/
inductive UOp where
  | neg | pos
  deriving DecidableEq, Repr

/-- Expression trees as `_eval_node` distinguishes them: constants, bare
names, binary and unary operations, calls, list and tuple displays. -/
inductive PyExpr where
  | const (c : PyConst)
  | nameRef (s : List Char)
  | binop (op : BOp) (l r : PyExpr)
  | unop (op : UOp) (e : PyExpr)
  | call (f : PyExpr) (args : List PyExpr)
  | listLit (es : List PyExpr)
  | tupleLit (es : List PyExpr)

/-- Tokens of the restricted arithmetic grammar. -/
inductive MTok where
  | num (c : PyConst)
  | name (s : List Char)
  | plus | minus | star | slash | dslash | percent | dstar
  | lpar | rpar | comma
  deriving DecidableEq, Repr

/-- Decimal value of a digit run. -/
def digitsVal (ds : List Char) : Nat :=
  ds.foldl (fun acc c => acc * 10 + (c.toNat - 48)) 0

/-- Scan a numeric literal: digits, optional fractional part, optional
exponent.  A bare digit run is an int literal, anything else a float.
Python's leading-zero restriction on int literals is not modelled; no claim
involves it. -/
def scanNumber (l : List Char) : Option (PyConst × List Char) :=
  let ip := l.takeWhile Char.isDigit
  let r1 := l.dropWhile Char.isDigit
  let dotScan : Bool × List Char × List Char :=
    match r1 with
    | c :: cs =>
      if c = '.' then (true, cs.takeWhile Char.isDigit, cs.dropWhile Char.isDigit)
      else (false, [], r1)
    | [] => (false, [], r1)
  let hasDot := dotScan.1
  let fp := dotScan.2.1
  let r2 := dotScan.2.2
  if ip.isEmpty && fp.isEmpty then none
  else
    let mant : ℚ := (digitsVal ip : ℚ) + (digitsVal fp : ℚ) / (10 : ℚ) ^ fp.length
    let expScan : Bool × Int × List Char :=
      match r2 with
      | c :: cs =>
        if c = 'e' || c = 'E' then
          match cs with
          | d :: ds =>
            if d = '+' then
              let es := ds.takeWhile Char.isDigit
              if es.isEmpty then (false, 0, r2)
              else (true, (digitsVal es : Int), ds.dropWhile Char.isDigit)
            else if d = '-' then
              let es := ds.takeWhile Char.isDigit
              if es.isEmpty then (false, 0, r2)
              else (true, -(digitsVal es : Int), ds.dropWhile Char.isDigit)
            else
              let es := cs.takeWhile Char.isDigit
              if es.isEmpty then (false, 0, r2)
              else (true, (digitsVal es : Int), cs.dropWhile Char.isDigit)
          | [] => (false, 0, r2)
        else (false, 0, r2)
      | [] => (false, 0, r2)
    let hasExp := expScan.1
    let exval := expScan.2.1
    let r3 := expScan.2.2
    if hasDot || hasExp then
      let q : ℚ :=
        if 0 ≤ exval then mant * (10 : ℚ) ^ exval.toNat
        else mant / (10 : ℚ) ^ (-exval).toNat
      some (.float q, r3)
    else some (.int (digitsVal ip : Int), r3)

/-- Tokenize an expression string (fuel-based; `l.length + 1` fuel always
suffices since every step consumes at least one character). -/
def tokenize : Nat → List Char → Option (List MTok)
  | 0, _ => none
  | _, [] => some []
  | fuel + 1, c :: cs =>
    if isPyWs c then tokenize fuel cs
    else if c.isDigit || (c = '.' && (cs.headD ' ').isDigit) then
      match scanNumber (c :: cs) with
      | some (n, rest) =>
        match tokenize fuel rest with
        | some ts => some (.num n :: ts)
        | none => none
      | none => none
    else if c.isAlpha then
      let nm := (c :: cs).takeWhile (fun d => d.isAlpha || d.isDigit)
      let rest := (c :: cs).dropWhile (fun d => d.isAlpha || d.isDigit)
      match tokenize fuel rest with
      | some ts => some (.name nm :: ts)
      | none => none
    else if c = '*' then
      match cs with
      | d :: ds =>
        if d = '*' then (tokenize fuel ds).map (fun ts => .dstar :: ts)
        else (tokenize fuel cs).map (fun ts => .star :: ts)
      | [] => (tokenize fuel cs).map (fun ts => .star :: ts)
    else if c = '/' then
      match cs with
      | d :: ds =>
        if d = '/' then (tokenize fuel ds).map (fun ts => .dslash :: ts)
        else (tokenize fuel cs).map (fun ts => .slash :: ts)
      | [] => (tokenize fuel cs).map (fun ts => .slash :: ts)
    else if c = '+' then (tokenize fuel cs).map (fun ts => .plus :: ts)
    else if c = '-' then (tokenize fuel cs).map (fun ts => .minus :: ts)
    else if c = '%' then (tokenize fuel cs).map (fun ts => .percent :: ts)
    else if c = lparC then (tokenize fuel cs).map (fun ts => .lpar :: ts)
    else if c = rparC then (tokenize fuel cs).map (fun ts => .rpar :: ts)
    else if c = ',' then (tokenize fuel cs).map (fun ts => .comma :: ts)
    else none

/-- Recognize the keyword constants Python parses as `Constant` nodes. -/
def nameToAtom (s : List Char) : PyExpr :=
  if s == "True".data then .const (.bool true)
  else if s == "False".data then .const (.bool false)
  else if s == "None".data then .const .pynone
  else .nameRef s

mutual

/-- Additive level: `mul (("+"|"-") mul)*`, left-associative. -/
def parseAddT : Nat → List MTok → Option (PyExpr × List MTok)
  | 0, _ => none
  | fuel + 1, ts =>
    match parseMulT fuel ts with
    | some (e, rest) => parseAddLoop fuel e rest
    | none => none

/-- Loop part of the additive level. -/
def parseAddLoop : Nat → PyExpr → List MTok → Option (PyExpr × List MTok)
  | 0, _, _ => none
  | fuel + 1, acc, ts =>
    match ts with
    | .plus :: rest =>
      match parseMulT fuel rest with
      | some (e, rest') => parseAddLoop fuel (.binop .add acc e) rest'
      | none => none
    | .minus :: rest =>
      match parseMulT fuel rest with
      | some (e, rest') => parseAddLoop fuel (.binop .sub acc e) rest'
      | none => none
    | _ => some (acc, ts)

/-- Multiplicative level: `unary (("*"|"/"|"//"|"%") unary)*`. -/
def parseMulT : Nat → List MTok → Option (PyExpr × List MTok)
  | 0, _ => none
  | fuel + 1, ts =>
    match parseUnaryT fuel ts with
    | some (e, rest) => parseMulLoop fuel e rest
    | none => none

/-- Loop part of the multiplicative level. -/
def parseMulLoop : Nat → PyExpr → List MTok → Option (PyExpr × List MTok)
  | 0, _, _ => none
  | fuel + 1, acc, ts =>
    match ts with
    | .star :: rest =>
      match parseUnaryT fuel rest with
      | some (e, rest') => parseMulLoop fuel (.binop .mul acc e) rest'
      | none => none
    | .slash :: rest =>
      match parseUnaryT fuel rest with
      | some (e, rest') => parseMulLoop fuel (.binop .div acc e) rest'
      | none => none
    | .dslash :: rest =>
      match parseUnaryT fuel rest with
      | some (e, rest') => parseMulLoop fuel (.binop .floordiv acc e) rest'
      | none => none
    | .percent :: rest =>
      match parseUnaryT fuel rest with
      | some (e, rest') => parseMulLoop fuel (.binop .mod acc e) rest'
      | none => none
    | _ => some (acc, ts)

/-- Unary level: `("+"|"-") unary | power` (Python's `factor`). -/
def parseUnaryT : Nat → List MTok → Option (PyExpr × List MTok)
  | 0, _ => none
  | fuel + 1, ts =>
    match ts with
    | .minus :: rest =>
      match parseUnaryT fuel rest with
      | some (e, rest') => some (.unop .neg e, rest')
      | none => none
    | .plus :: rest =>
      match parseUnaryT fuel rest with
      | some (e, rest') => some (.unop .pos e, rest')
      | none => none
    | _ => parsePowT fuel ts

/-- Power level: `postfix ["**" unary]`, right-associative, with the
right operand at the unary level, matching Python's `power: atom ** factor`. -/
def parsePowT : Nat → List MTok → Option (PyExpr × List MTok)
  | 0, _ => none
  | fuel + 1, ts =>
    match parsePostT fuel ts with
    | some (e, .dstar :: rest) =>
      match parseUnaryT fuel rest with
      | some (r, rest') => some (.binop .pow e r, rest')
      | none => none
    | some (e, rest) => some (e, rest)
    | none => none

/-- Postfix level: an atom followed by call argument lists. -/
def parsePostT : Nat → List MTok → Option (PyExpr × List MTok)
  | 0, _ => none
  | fuel + 1, ts =>
    match parseAtomT fuel ts with
    | some (e, rest) => parseCallLoop fuel e rest
    | none => none

/-- Apply trailing `(args)` call suffixes. -/
def parseCallLoop : Nat → PyExpr → List MTok → Option (PyExpr × List MTok)
  | 0, _, _ => none
  | fuel + 1, acc, ts =>
    match ts with
    | .lpar :: rest =>
      match rest with
      | .rpar :: rest' => parseCallLoop fuel (.call acc []) rest'
      | _ =>
        match parseArgsT fuel rest with
        | some (args, rest') => parseCallLoop fuel (.call acc args) rest'
        | none => none
    | _ => some (acc, ts)

/-- One or more comma-separated arguments followed by a closing paren. -/
def parseArgsT : Nat → List MTok → Option (List PyExpr × List MTok)
  | 0, _ => none
  | fuel + 1, ts =>
    match parseAddT fuel ts with
    | some (e, .comma :: rest) =>
      match rest with
      | .rpar :: rest' => some ([e], rest')
      | _ =>
        match parseArgsT fuel rest with
        | some (es, rest') => some (e :: es, rest')
        | none => none
    | some (e, .rpar :: rest) => some ([e], rest)
    | some _ => none
    | none => none

/-- Atom: literal, name, or parenthesized expression / tuple display. -/
def parseAtomT : Nat → List MTok → Option (PyExpr × List MTok)
  | 0, _ => none
  | fuel + 1, ts =>
    match ts with
    | .num c :: rest => some (.const c, rest)
    | .name s :: rest => some (nameToAtom s, rest)
    | .lpar :: rest =>
      match rest with
      | .rpar :: rest' => some (.tupleLit [], rest')
      | _ =>
        match parseAddT fuel rest with
        | some (e, .rpar :: rest') => some (e, rest')
        | some (e, .comma :: rest') =>
          match rest' with
          | .rpar :: rest'' => some (.tupleLit [e], rest'')
          | _ =>
            match parseTupleTail fuel rest' with
            | some (es, rest'') => some (.tupleLit (e :: es), rest'')
            | none => none
        | some _ => none
        | none => none
    | _ => none

/-- Remaining elements of a parenthesized tuple display, with an optional
trailing comma. -/
def parseTupleTail : Nat → List MTok → Option (List PyExpr × List MTok)
  | 0, _ => none
  | fuel + 1, ts =>
    match parseAddT fuel ts with
    | some (e, .rpar :: rest) => some ([e], rest)
    | some (e, .comma :: rest) =>
      match rest with
      | .rpar :: rest' => some ([e], rest')
      | _ =>
        match parseTupleTail fuel rest with
        | some (es, rest') => some (e :: es, rest')
        | none => none
    | some _ => none
    | none => none

end

/-- Parse a token list as a complete expression. -/
def parseTokens (ts : List MTok) : Option PyExpr :=
  match parseAddT (8 * ts.length + 64) ts with
  | some (e, []) => some e
  | _ => none

/-- Model of `ast.parse(expression, mode="eval")` restricted to the grammar
reachable through `validate_math_expression`: arithmetic over int and float
literals, names, calls, parenthesized expressions and tuple displays.
Constructs whose tokens the validation character class excludes (strings,
subscripts, list displays, comparisons, boolean and bitwise operators) are
never reachable from `calculate` and are not parsed here. -/
def pyParseExpr (l : List Char) : Option PyExpr :=
  match tokenize (l.length + 1) l with
  | some ts => parseTokens ts
  | none => none

/-! ## Expression evaluation (model of `_eval_node` and `safe_eval`) -/

/-- Runtime values `_eval_node` can produce: Python ints, floats (modelled
as exact rationals), bools, None, and lists. -/
inductive PyVal where
  | int (n : Int)
  | float (q : ℚ)
  | bool (b : Bool)
  | pynone
  | list (vs : List PyVal)

/-- Errors during `_eval_node`: a `ZeroDivisionError`, a `ValueError`-style
message, or an evaluation outcome outside the exact-rational model (only a
non-integral float exponent; no claim depends on it). -/
inductive EvalErr where
  | zeroDiv
  | msg (m : List Char)
  | unmodelled
  deriving DecidableEq, Repr

/-- View a value as a Python number.  `bool` is a subclass of `int` in
Python, so booleans participate in arithmetic as 0 and 1. -/
def PyVal.asNum : PyVal → Option (Int ⊕ ℚ)
  | .int n => some (.inl n)
  | .bool b => some (.inl (if b then 1 else 0))
  | .float q => some (.inr q)
  | _ => none

/-- The rational value of a Python number. -/
def numQ : Int ⊕ ℚ → ℚ
  | .inl n => (n : ℚ)
  | .inr q => q

/-- Placeholder for Python TypeError messages whose exact wording is not
modelled; no claim depends on their text. -/
def typeErrMsg : List Char := "unsupported operand type(s)".data

/-- Python `**` on numbers.  Integer exponents (including integral floats)
are exact; a non-integral float exponent yields a real- or complex-valued
power not representable over rationals and maps to `unmodelled`. -/
def applyPow (x y : Int ⊕ ℚ) : Except EvalErr PyVal :=
  match y with
  | .inl k =>
    if 0 ≤ k then
      match x with
      | .inl m => .ok (.int (m ^ k.toNat))
      | .inr q => .ok (.float (q ^ k.toNat))
    else if numQ x = 0 then .error .zeroDiv
    else .ok (.float ((numQ x)⁻¹ ^ (-k).toNat))
  | .inr q =>
    if q.den = 1 then
      if 0 ≤ q.num then .ok (.float (numQ x ^ q.num.toNat))
      else if numQ x = 0 then .error .zeroDiv
      else .ok (.float ((numQ x)⁻¹ ^ (-q.num).toNat))
    else .error .unmodelled

/-- The numeric binary operations, following Python's type rules: int-int
stays int except for true division; any float makes the result float; `//`
and `%` floor toward negative infinity; division by zero raises. -/
def applyBinNum : BOp → Int ⊕ ℚ → Int ⊕ ℚ → Except EvalErr PyVal
  | .add, .inl m, .inl n => .ok (.int (m + n))
  | .add, x, y => .ok (.float (numQ x + numQ y))
  | .sub, .inl m, .inl n => .ok (.int (m - n))
  | .sub, x, y => .ok (.float (numQ x - numQ y))
  | .mul, .inl m, .inl n => .ok (.int (m * n))
  | .mul, x, y => .ok (.float (numQ x * numQ y))
  | .div, x, y =>
    if numQ y = 0 then .error .zeroDiv else .ok (.float (numQ x / numQ y))
  | .floordiv, .inl m, .inl n =>
    if n = 0 then .error .zeroDiv else .ok (.int (Int.fdiv m n))
  | .floordiv, x, y =>
    if numQ y = 0 then .error .zeroDiv
    else .ok (.float ((⌊numQ x / numQ y⌋ : ℤ) : ℚ))
  | .mod, .inl m, .inl n =>
    if n = 0 then .error .zeroDiv else .ok (.int (Int.fmod m n))
  | .mod, x, y =>
    if numQ y = 0 then .error .zeroDiv
    else .ok (.float (numQ x - numQ y * ((⌊numQ x / numQ y⌋ : ℤ) : ℚ)))
  | .pow, x, y => applyPow x y

/-- A binary operation from `SAFE_OPERATORS` applied to two values: numeric
cases via `applyBinNum`; Python additionally concatenates lists under `+`
and replicates them under `*` with an integer; everything else is a
TypeError. -/
def applyBin (op : BOp) (a b : PyVal) : Except EvalErr PyVal :=
  match a.asNum, b.asNum with
  | some x, some y => applyBinNum op x y
  | _, _ =>
    match op, a, b with
    | .add, .list xs, .list ys => .ok (.list (xs ++ ys))
    | .mul, .list xs, v =>
      match v.asNum with
      | some (.inl n) => .ok (.list ((List.replicate n.toNat xs).flatten))
      | _ => .error (.msg typeErrMsg)
    | .mul, v, .list xs =>
      match v.asNum with
      | some (.inl n) => .ok (.list ((List.replicate n.toNat xs).flatten))
      | _ => .error (.msg typeErrMsg)
    | _, _, _ => .error (.msg typeErrMsg)

/-- A unary operation from `SAFE_OPERATORS` applied to a value. -/
def applyUn : UOp → PyVal → Except EvalErr PyVal
  | .neg, v =>
    match v.asNum with
    | some (.inl n) => .ok (.int (-n))
    | some (.inr q) => .ok (.float (-q))
    | none => .error (.msg typeErrMsg)
  | .pos, v =>
    match v.asNum with
    | some (.inl n) => .ok (.int n)
    | some (.inr q) => .ok (.float q)
    | none => .error (.msg typeErrMsg)

/-- Python type names used in error messages. -/
def pyTypeName : PyVal → List Char
  | .int _ => "int".data
  | .float _ => "float".data
  | .bool _ => "bool".data
  | .pynone => "NoneType".data
  | .list _ => "list".data

/-- Round half to even on exact rationals (Python's rounding mode).  The
binary-float representation error that makes e.g. round(2.675, 2) = 2.67 in
CPython is not modelled; no claim depends on it. -/
def roundHalfEven (q : ℚ) : Int :=
  let f := ⌊q⌋
  let r := q - (f : ℚ)
  if r < 1 / 2 then f
  else if 1 / 2 < r then f + 1
  else if f % 2 = 0 then f else f + 1

/-- Python min/max over a nonempty value sequence: numeric comparison, with
the earliest extremum returned on ties. -/
def pyMinMax (isMin : Bool) (vs : List PyVal) : Except EvalErr PyVal :=
  match vs with
  | [] =>
    .error (.msg (if isMin then "min() arg is an empty sequence".data
                  else "max() arg is an empty sequence".data))
  | v :: rest =>
    rest.foldlM (fun best x =>
      match best.asNum, x.asNum with
      | some b, some xv =>
        if isMin then (if numQ xv < numQ b then pure x else pure best)
        else (if numQ b < numQ xv then pure x else pure best)
      | _, _ => .error (.msg typeErrMsg)) v

/-- Python `sum` over a value list with an explicit start value. -/
def pySum (vs : List PyVal) (start : PyVal) : Except EvalErr PyVal :=
  vs.foldlM (fun acc x => applyBin .add acc x) start

/-- The names in `SAFE_FUNCTIONS` (math_operator.py lines 25-31). -/
def SAFE_FUNCTION_NAMES : List (List Char) :=
  ["abs".data, "min".data, "max".data, "round".data, "sum".data]

/-- Apply one of the `SAFE_FUNCTIONS` to evaluated arguments. -/
def applyFn (f : List Char) (args : List PyVal) : Except EvalErr PyVal :=
  if f = "abs".data then
    match args with
    | [v] =>
      match v.asNum with
      | some (.inl n) => .ok (.int |n|)
      | some (.inr q) => .ok (.float |q|)
      | none => .error (.msg typeErrMsg)
    | _ => .error (.msg typeErrMsg)
  else if f = "min".data || f = "max".data then
    match args with
    | [] => .error (.msg typeErrMsg)
    | [.list vs] => pyMinMax (f = "min".data) vs
    | [_] => .error (.msg typeErrMsg)
    | vs => pyMinMax (f = "min".data) vs
  else if f = "round".data then
    match args with
    | [v] =>
      match v.asNum with
      | some (.inl n) => .ok (.int n)
      | some (.inr q) => .ok (.int (roundHalfEven q))
      | none => .error (.msg typeErrMsg)
    | [v, nd] =>
      match v.asNum, nd.asNum with
      | some x, some (.inl k) =>
        match x with
        | .inl n =>
          if 0 ≤ k then .ok (.int n)
          else
            let p : Int := 10 ^ (-k).toNat
            .ok (.int (roundHalfEven ((n : ℚ) / (p : ℚ)) * p))
        | .inr q =>
          let scale : ℚ :=
            if 0 ≤ k then (10 : ℚ) ^ k.toNat else ((10 : ℚ) ^ (-k).toNat)⁻¹
          .ok (.float ((roundHalfEven (q * scale) : ℤ) / scale))
      | _, _ => .error (.msg typeErrMsg)
    | _ => .error (.msg typeErrMsg)
  else if f = "sum".data then
    match args with
    | [.list vs] => pySum vs (.int 0)
    | [_] => .error (.msg typeErrMsg)
    | [.list vs, start] => pySum vs start
    | _ => .error (.msg typeErrMsg)
  else .error (.msg ("Unsupported function: ".data ++ f))

/-- Embedding of `_eval_node` (math_operator.py lines 55-86), fuel-based;
`sizeOf e` fuel always suffices.  Constants evaluate to themselves; a bare
Name is an unsupported node; binary and unary operations evaluate operands
left to right; a call first requires its function to be a name in
`SAFE_FUNCTIONS` (a non-name callee reports function None, as
`node.func.id if isinstance(node.func, ast.Name) else None` does), then
evaluates the arguments; list displays evaluate elementwise; any other
node (tuples) is unsupported. -/
def evalNode : Nat → PyExpr → Except EvalErr PyVal
  | 0, _ => .error .unmodelled
  | fuel + 1, e =>
    match e with
    | .const (.int n) => .ok (.int n)
    | .const (.float q) => .ok (.float q)
    | .const (.bool b) => .ok (.bool b)
    | .const .pynone => .ok .pynone
    | .nameRef _ => .error (.msg "Unsupported AST node type: Name".data)
    | .binop op l r => do
      let a ← evalNode fuel l
      let b ← evalNode fuel r
      applyBin op a b
    | .unop op x => do
      let v ← evalNode fuel x
      applyUn op v
    | .call f args =>
      match f with
      | .nameRef nm =>
        if SAFE_FUNCTION_NAMES.contains nm then do
          let vs ← args.mapM (evalNode fuel)
          applyFn nm vs
        else .error (.msg ("Unsupported function: ".data ++ nm))
      | _ => .error (.msg "Unsupported function: None".data)
    | .listLit es => do
      let vs ← es.mapM (evalNode fuel)
      pure (.list vs)
    | .tupleLit _ => .error (.msg "Unsupported AST node type: Tuple".data)

/-- Python `isinstance(result, (int, float))`; booleans pass because `bool`
subclasses `int`. -/
def isPyNumber : PyVal → Bool
  | .int _ => true
  | .float _ => true
  | .bool _ => true
  | _ => false

/-- Errors `safe_eval` can raise to `calculate`: `ZeroDivisionError`,
`ValueError`, or an outcome outside the rational model. -/
inductive PyErr where
  | zeroDivErr (m : List Char)
  | valueErr (m : List Char)
  | unmodelled
  deriving DecidableEq, Repr

mutual

/-- Structural fuel bound for `evalNode` on an expression. -/
def exprFuel : PyExpr → Nat
  | .const _ => 1
  | .nameRef _ => 1
  | .binop _ l r => exprFuel l + exprFuel r + 1
  | .unop _ e => exprFuel e + 1
  | .call f args => exprFuel f + exprListFuel args + 1
  | .listLit es => exprListFuel es + 1
  | .tupleLit es => exprListFuel es + 1

/-- Structural fuel bound for a list of expressions. -/
def exprListFuel : List PyExpr → Nat
  | [] => 0
  | e :: es => exprFuel e + exprListFuel es + 1

end

/-- The evaluation half of `safe_eval` (lines 88-101) on a parsed tree:
check the result is a number, and translate `_eval_node` errors — a
`ZeroDivisionError` is re-raised with a fixed message, everything else is
wrapped as `ValueError("Invalid mathematical expression: ...")`. -/
def safe_eval_ast (e : PyExpr) : Except PyErr PyVal :=
  match evalNode (exprFuel e) e with
  | .ok v =>
    if isPyNumber v then .ok v
    else .error (.valueErr
      ("Invalid mathematical expression: Expression must evaluate to a number, got ".data
        ++ pyTypeName v))
  | .error .zeroDiv =>
    .error (.zeroDivErr "Division by zero in mathematical expression".data)
  | .error (.msg m) =>
    .error (.valueErr ("Invalid mathematical expression: ".data ++ m))
  | .error .unmodelled => .error .unmodelled

/-- Placeholder for the SyntaxError detail text that Python embeds in the
"Invalid mathematical expression" message on a parse failure; the exact
wording is not modelled and no claim depends on it. -/
def syntaxErrDetail : List Char := "invalid syntax".data

/-- Embedding of `safe_eval` (math_operator.py lines 34-101) from the
validated expression string: parse with `ast.parse`, then evaluate; a parse
failure surfaces as the wrapped `ValueError`. -/
def safe_evalL (clean : List Char) : Except PyErr PyVal :=
  match pyParseExpr clean with
  | some e => safe_eval_ast e
  | none => .error (.valueErr ("Invalid mathematical expression: ".data ++ syntaxErrDetail))

/-- Result formatting in `calculate` (lines 196-205): an integral float
renders as its integer part, any other float goes through `%.10g`
formatting (not modelled — marked by a placeholder; no claim depends on
it), ints and bools render via `str`. -/
def formatResult : PyVal → List Char
  | .float q => if q.den = 1 then (toString q.num).data else "<float formatting not modelled>".data
  | .int n => (toString n).data
  | .bool b => (if b then "True" else "False").data
  | v => pyTypeName v

/-- The `calculate` tool pipeline (math_operator.py lines 137-225),
parameterized by the expression evaluator so that non-invocation of the
evaluator on rejected inputs is expressible.  Empty input short-circuits;
then JSON normalization, validation (whose `ValueError` messages return as
"Error: ..." strings), evaluation (`ZeroDivisionError` mapping to the fixed
division-by-zero string, `ValueError` to its message), and result
formatting into the success sentence. -/
def calcLWith (evalF : List Char → Except PyErr PyVal) (s : List Char) : List Char :=
  if s.isEmpty then
    "Error: No expression provided. Please provide a mathematical expression to calculate.".data
  else
    match validate_math_expression (calcNormalize s) with
    | .error m => "Error: ".data ++ m
    | .ok clean =>
      match evalF clean with
      | .error (.zeroDivErr _) =>
        "Error: Division by zero is not allowed in mathematical expressions.".data
      | .error (.valueErr m) => "Error: ".data ++ m
      | .error .unmodelled => "<unmodelled evaluation>".data
      | .ok v =>
        let f := formatResult v
        "The calculation result is ".data ++ f ++ ", as ".data ++ clean
          ++ " = ".data ++ f ++ ".".data

/-- The `calculate` pipeline with the real evaluator. -/
def calcL : List Char → List Char := calcLWith safe_evalL

/-- The `calculate` tool on strings. -/
def calculate (s : String) : String := String.mk (calcL s.data)

/-! ## Weather tool (src/tools/operators/weather_operator.py) -/

/-- First geocoding hit, as `geocode_location` extracts it (latitude,
longitude, name, country); coordinates are modelled as exact rationals. -/
structure GeoInfo where
  latitude : ℚ
  longitude : ℚ
  placeName : List Char
  country : List Char

/-- Model of Python `float(s)` on the string forms the coordinate path can
meet: optional sign, digits with an optional decimal point and exponent.
The special strings inf/infinity/nan are not modelled; no claim involves
them. -/
def pyFloat? (l0 : List Char) : Option ℚ :=
  let neg := l0.headD ' ' = '-'
  let l1 := if l0.headD ' ' = '+' || neg then l0.tail else l0
  match scanNumber l1 with
  | some (.int n, []) => some (if neg then -(n : ℚ) else (n : ℚ))
  | some (.float q, []) => some (if neg then -q else q)
  | _ => none

/-- The first startswith prefix `get_current_weather` tests for. -/
def weatherPrefix1 : List Char :=
  lbraceC :: qmarkC :: ("location".data ++ [qmarkC, ':'])

/-- The second startswith prefix `get_current_weather` tests for. -/
def weatherPrefix2 : List Char :=
  lbraceC :: aposC :: ("location".data ++ [aposC])

/-- JSON normalization step of `get_current_weather` (weather_operator.py
lines 207-222): prefix-gated extraction of the "location" field, exactly as
in `calculate`.  A non-string extracted value later fails `.strip()` with
an AttributeError, which the tool's generic handler turns into its
unexpected-error string. -/
def weatherNormalize (s : List Char) : ToolArg :=
  if weatherPrefix1.isPrefixOf s || weatherPrefix2.isPrefixOf s then
    match jsonParseFlatObj (pyReplaceApos s) with
    | some obj =>
      match jsonLookupLast "location".data obj with
      | some (.jstr v) => .str v
      | some _ => .nonstr
      | none => .str s
    | none => .str s
  else .str s

/-- Python `split(",", 1)`: the part before the first comma and the part
after it. -/
def splitFirstComma (l : List Char) : List Char × List Char :=
  (l.takeWhile (fun c => c ≠ ','), (l.dropWhile (fun c => c ≠ ',')).tail)

/-- Embedding of `get_current_weather` (weather_operator.py lines 176-291)
with the external collaborators as oracles: `geo` is `geocode_location`
(first geocoding hit or None, including on any network error), `wapi` is
the forecast API request plus `format_weather_response` (a network error or
a formatted report for given coordinates).  Empty input is rejected; after
JSON normalization and stripping, an input containing a comma is treated as
coordinates (both parts must parse as floats, else the
invalid-coordinate-format error), and only a comma-free input is geocoded,
with a failed geocoding producing the could-not-find-coordinates error.
Every path returns a string. -/
def get_current_weather (geo : List Char → Option GeoInfo)
    (wapi : ℚ → ℚ → Except (List Char) (List Char))
    (location : List Char) : List Char :=
  if location.isEmpty then
    "Error: Please provide a valid location name or coordinates.".data
  else
    match weatherNormalize location with
    | .nonstr =>
      "Error: An unexpected error occurred while fetching weather data. <detail not modelled>".data
    | .str a =>
      let loc := pyStrip a
      if loc.contains ',' then
        match pyFloat? (pyStrip (splitFirstComma loc).1),
              pyFloat? (pyStrip (splitFirstComma loc).2) with
        | some lat, some lon =>
          (match wapi lat lon with
           | .ok report => report
           | .error e => "Error fetching weather data: Network error - ".data ++ e)
        | _, _ =>
          "Error: Invalid coordinate format. Use 'latitude,longitude' (e.g., '52.52,13.41')".data
      else
        match geo loc with
        | none =>
          "Error: Could not find coordinates for location '".data ++ loc
            ++ "'. Please check the spelling or try a different location.".data
        | some info =>
          match wapi info.latitude info.longitude with
          | .ok report => report
          | .error e => "Error fetching weather data: Network error - ".data ++ e

/-- The argument of `check_leap_year` after JSON normalization: the string
actually used, or a marker for an extracted value whose Python
interpolation is outside the model. -/
inductive LeapArg where
  | strv (s : List Char)
  | unmodelled
  deriving DecidableEq, Repr

/-- JSON normalization step of `check_leap_year` (datetime_operator.py
lines 210-224): unlike the math and weather tools, the gate is
`year.startswith("{")` — just a leading brace — and there is no apostrophe
replacement; when the parse yields an object containing key "year", that
value replaces the input, and every failure mode keeps the raw string.  An
extracted integer is used as its decimal text (Python interpolates
`str(int)` identically); other non-string values are outside the model and
no claim touches them. -/
def leapNormalize (s : List Char) : LeapArg :=
  if s.headD ' ' = lbraceC then
    match jsonParseFlatObj s with
    | some obj =>
      match jsonLookupLast "year".data obj with
      | some (.jstr v) => .strv v
      | some (.jint n) => .strv (toString n).data
      | some .jother => .unmodelled
      | none => .strv s
    | none => .strv s
  else .strv s

/-- Embedding of `check_leap_year` (datetime_operator.py lines 193-243).
The digidates API request (`make_digidates_request("/leapyear", ...)`) plus
the subsequent "result" unwrapping are compressed into the oracle `api`:
`none` models a failed request (the tool's unable-to-check error), `some b`
the truthiness of the unwrapped value.  The claim settled against this
embedding concerns only the input normalization, which the oracle boundary
leaves intact.  Every path returns a string. -/
def check_leap_year (api : List Char → Option Bool) (year : List Char) : List Char :=
  match leapNormalize year with
  | .unmodelled => "<non-string year value not modelled>".data
  | .strv a =>
    match api a with
    | none => "Error: Unable to check leap year for ".data ++ a
    | some b =>
      "Year ".data ++ a ++
        (if b then " is a leap year".data else " is not a leap year".data)

/-- Substring containment on character lists: `sub` occurs contiguously in
`s` (Python's `sub in s`). -/
def containsSub (s sub : List Char) : Bool :=
  (List.range (s.length + 1)).any (fun i => sub.isPrefixOf (s.drop i))

/-- Modelled from the spec: a location string "in latitude,longitude
coordinate form" — a comma-separated pair whose two parts parse as floats,
as in the spec's coordinate example "52.52,13.41". -/
def specCoordForm (l : List Char) : Bool :=
  l.contains ',' &&
    (match pyFloat? (pyStrip (splitFirstComma l).1),
           pyFloat? (pyStrip (splitFirstComma l).2) with
     | some _, some _ => true
     | _, _ => false)

/-! ## Tracing wrappers (src/tools/factory.py, src/shared/operator_executor.py) -/

/-- Failure state of the tracing collaborator during one wrapped
invocation. -/
structure TraceEnv where
  hasParentTrace : Bool
  spanCreateFails : Bool
  spanUpdateFails : Bool
  deriving DecidableEq, Repr

/-- Events logged by the tracing wrappers; they make the tracing branches
observable somewhere other than the functional result. -/
inductive TraceEvent where
  | spanCreated
  | spanCreateFailed
  | spanUpdated
  | spanUpdateFailed
  | noParentTrace
  deriving DecidableEq, Repr

/-- Embedding of the `wrapper` closure of `create_traced_tool`
(src/tools/factory.py lines 42-141): span creation is attempted only when a
parent trace exists and its failure is caught and logged; the wrapped
function runs regardless; the span update after a success or a failure is
likewise attempted with its failure caught; the function's result (or its
exception, re-raised) passes through unchanged. -/
def create_traced_tool (env : TraceEnv)
    (f : List Char → Except (List Char) (List Char)) (x : List Char) :
    Except (List Char) (List Char) × List TraceEvent :=
  let createEvents :=
    if env.hasParentTrace then
      if env.spanCreateFails then [TraceEvent.spanCreateFailed]
      else [TraceEvent.spanCreated]
    else [TraceEvent.noParentTrace]
  let spanOpen := env.hasParentTrace && !env.spanCreateFails
  let updEvents :=
    if spanOpen then
      if env.spanUpdateFails then [TraceEvent.spanUpdateFailed]
      else [TraceEvent.spanUpdated]
    else []
  (f x, createEvents ++ updEvents)

/-- What a freshly constructed operator agent's `invoke` does on the task:
raise, or return a result dictionary whose "output" key may be absent. -/
inductive AgentRun where
  | raises (e : List Char)
  | returns (output : Option (List Char))
  deriving DecidableEq, Repr

/-- The source's `result.get("output", f"No response from {name} operator")`. -/
def runOutput (opName : List Char) (r : Option (List Char)) : List Char :=
  r.getD ("No response from ".data ++ opName ++ " operator".data)

/-- The untraced fallback execution path of the operator executors,
together with the outer exception handler: a raising run becomes the
formatted error string. -/
def operatorFallback (opName : List Char) (run : AgentRun) : List Char :=
  match run with
  | .returns out => runOutput opName out
  | .raises e => "Error in ".data ++ opName ++ " operator: ".data ++ e

/-- Embedding of `execute_operator_with_tracing`
(src/shared/operator_executor.py lines 8-121) with a deterministic agent
run: the traced branch runs when tracing setup succeeds; any exception
inside it (the invoke's own exception, or a span-update failure after a
successful invoke) is caught and the untraced fallback re-executes the same
deterministic run; an exception in the fallback reaches the outer handler
and is formatted as an error string.  Returns the functional result and the
trace events. -/
def execute_operator_with_tracing (opName : List Char)
    (traceSetupFails spanUpdateFails : Bool) (run : AgentRun) :
    List Char × List TraceEvent :=
  if traceSetupFails then (operatorFallback opName run, [TraceEvent.noParentTrace])
  else
    match run with
    | .returns out =>
      if spanUpdateFails then
        (operatorFallback opName run, [TraceEvent.spanCreated, TraceEvent.spanUpdateFailed])
      else (runOutput opName out, [TraceEvent.spanCreated, TraceEvent.spanUpdated])
    | .raises _ => (operatorFallback opName run, [TraceEvent.spanCreated])

/-- Embedding of the `math_operator` delegation tool
(src/operators/math_operator_agent.py lines 141-289), whose body inlines
the same two-level try structure as the shared executor with operator name
"math": construct a fresh math operator agent, run it on the query inside a
tracing span when tracing is available, fall back to an untraced run when
anything in the traced branch raises, and format any fallback exception via
the outer handler.  The agent construction and run are the `runAgent`
oracle, deterministic in the query. -/
def math_operator (traceSetupFails spanUpdateFails : Bool)
    (runAgent : List Char → AgentRun) (query : List Char) : List Char :=
  let run := runAgent query
  if traceSetupFails then operatorFallback "math".data run
  else
    match run with
    | .returns out =>
      if spanUpdateFails then operatorFallback "math".data run
      else runOutput "math".data out
    | .raises _ => operatorFallback "math".data run

/-! ## Agent info and health endpoint (src/agent_factory.py, src/main.py) -/

/-- Values stored in the agent-info dictionary.  The "operators" roster (a
list of name/description dictionaries) is summarized by its length; no
claim inspects the roster entries themselves. -/
inductive InfoVal where
  | nat (n : Nat)
  | str (s : String)
  | bool (b : Bool)
  deriving DecidableEq, Repr

/-- Embedding of `get_agent_info` (src/agent_factory.py lines 407-449): the
keys of the returned dictionary.  The tool count is exposed only under
"operators_count"; no "tools_count" key exists. -/
def get_agent_info (toolCount maxIterations maxExecutionTime : Nat)
    (verbose : Bool) (callbacksCount : Nat) : List (String × InfoVal) :=
  [("operators_count", .nat toolCount),
   ("operators", .nat toolCount),
   ("max_iterations", .nat maxIterations),
   ("max_execution_time", .nat maxExecutionTime),
   ("verbose", .bool verbose),
   ("has_callbacks", .bool (callbacksCount > 0)),
   ("callbacks_count", .nat callbacksCount)]

/-- Python `dict.get(key, default)` returning a number, on the info
dictionary (later duplicate keys would overwrite earlier ones). -/
def dictGetNat (d : List (String × InfoVal)) (key : String) (dfl : Nat) : Nat :=
  match (d.filter (fun p => p.1 == key)).getLast? with
  | some (_, .nat n) => n
  | _ => dfl

/-- The response body `health_check` builds. -/
structure HealthResponse where
  status : String
  agent_status : String
  tools_loaded : Nat
  langfuse_enabled : Bool
  deriving DecidableEq, Repr

/-- Embedding of `health_check` (src/main.py lines 215-236): a 503 when the
agent executor is not initialized; otherwise a healthy response whose
`tools_loaded` field reads key "tools_count" from the agent-info dictionary
with default 0. -/
def health_check (agentToolCount : Option Nat)
    (maxIterations maxExecutionTime callbacksCount : Nat)
    (langfuseEnabled : Bool) : Except Nat HealthResponse :=
  match agentToolCount with
  | none => .error 503
  | some n =>
    let info := get_agent_info n maxIterations maxExecutionTime false callbacksCount
    .ok { status := "healthy", agent_status := "ready",
          tools_loaded := dictGetNat info "tools_count" 0,
          langfuse_enabled := langfuseEnabled }

/-- The delegation tool defined by src/operators/datetime_operator_agent.py
(the `datetime_operator` function at its line 167), which
`get_operator_agents` does not include. -/
def datetime_operator_tool_name : String := "datetime_operator"

/-- Modelled from the spec: "an input string that is a JSON-encoded object
containing the tool's expected field name" with a string value — the
extraction the spec says every tool performs on such inputs. -/
def specJsonStringField (field : List Char) (s : List Char) : Option (List Char) :=
  match jsonParseFlatObj s with
  | some obj =>
    match jsonLookupLast field obj with
    | some (.jstr v) => some v
    | _ => none
  | none => none

theorem runLoopFrom_malformed (cfg : LoopConfig) (h : cfg.handleParsingErrors = true) :
    ∀ fuel i, runLoopFrom cfg alwaysMalformed i fuel =
      { iterations := i + fuel, reason := .maxIterations } := by
  intro fuel
  induction fuel with
  | zero => intro i; simp [runLoopFrom]
  | succ n ih =>
    intro i
    simp only [runLoopFrom, alwaysMalformed, h, if_true, ih]
    congr 1
    omega

/-- C2: the claim fails on the code: the registry built by
`get_operator_agents` holds only the weather and math delegation tools —
the datetime delegation tool defined in the source is absent, so a
datetime question such as "Is 2020 a leap year?" cannot be delegated.  The
repository's own test suite asserts a three-element registry that includes
`datetime_operator`. -/
theorem claim_C2 :
    get_operator_agents = ["weather_operator", "math_operator"] ∧
    datetime_operator_tool_name ∉ get_operator_agents ∧
    get_operator_agents.length = 2 := by
  refine ⟨rfl, ?_, rfl⟩
  decide

/-- C3: a loop configured with `max_iterations = N` (N ≥ 1) and parse-error
recovery enabled that receives malformed model output on every turn
terminates after exactly N iterations with reason `maxIterations`, and the
orchestrator executor is configured with `max_iterations = 10` and recovery
enabled. -/
theorem claim_C3 (N : Nat) (h : 1 ≤ N) :
    runLoop { maxIterations := N, handleParsingErrors := true } alwaysMalformed =
      { iterations := N, reason := .maxIterations } ∧
    orchestratorConfig.maxIterations = 10 ∧
    orchestratorConfig.handleParsingErrors = true := by
  refine ⟨?_, rfl, rfl⟩
  simpa [runLoop] using runLoopFrom_malformed _ rfl N 0

/-- Closed instance of the C3 theorem at N = 10 (the orchestrator's
configured budget). -/
theorem claim_C3_witness :
    runLoop { maxIterations := 10, handleParsingErrors := true } alwaysMalformed =
      { iterations := 10, reason := .maxIterations } ∧
    orchestratorConfig.maxIterations = 10 ∧
    orchestratorConfig.handleParsingErrors = true :=
  claim_C3 10 (by decide)

/-- C10: whenever the health check succeeds, the `tools_loaded` field of
the response is 0 regardless of the executor's tool count, because the
handler reads key "tools_count" while `get_agent_info` only exposes the
count under "operators_count". -/
theorem claim_C10 (n maxIter maxTime cb : Nat) (lf : Bool) :
    (health_check (some n) maxIter maxTime cb lf).map HealthResponse.tools_loaded =
      .ok 0 := rfl

/-- C7: tracing failures are confined to the trace-event log and never
change the functional result: the traced-tool wrapper returns exactly the
wrapped function's result under every tracing environment, and the operator
executor returns the same functional result under every combination of
tracing-setup and span-update failures for the same deterministic agent
run. -/
theorem claim_C7 :
    (∀ env env' : TraceEnv, ∀ f : List Char → Except (List Char) (List Char),
      ∀ x : List Char,
       (create_traced_tool env f x).1 = f x ∧
       (create_traced_tool env f x).1 = (create_traced_tool env' f x).1) ∧
    (∀ opName : List Char, ∀ t u t' u' : Bool, ∀ run : AgentRun,
       (execute_operator_with_tracing opName t u run).1 =
         (execute_operator_with_tracing opName t' u' run).1) := by
  constructor
  · intro env env' f x
    exact ⟨rfl, rfl⟩
  · intro opName t u t' u' run
    cases run with
    | returns out =>
      cases t <;> cases u <;> cases t' <;> cases u' <;>
        simp [execute_operator_with_tracing, operatorFallback]
    | raises e =>
      cases t <;> cases t' <;>
        simp [execute_operator_with_tracing, operatorFallback]

/-- C8: for every query, the `math_operator` delegation tool runs the
freshly constructed operator loop and returns its final output (with the
no-response default when the output key is absent) when the run returns,
and the formatted error string when the run raises; as a total function of
its inputs it never raises an exception to the orchestrator. -/
theorem claim_C8 (t u : Bool) (runAgent : List Char → AgentRun) (q : List Char)
    (out : Option (List Char)) (e : List Char) :
    (runAgent q = .returns out →
       math_operator t u runAgent q = runOutput "math".data out) ∧
    (runAgent q = .raises e →
       math_operator t u runAgent q = "Error in math operator: ".data ++ e) := by
  constructor
  · intro h
    cases t <;> cases u <;> simp [math_operator, h, operatorFallback]
  · intro h
    cases t <;> cases u <;> simp [math_operator, h, operatorFallback]

/-- Closed instance of the C8 theorem: a returning run's output passes
through, a raising run becomes the formatted error string. -/
theorem claim_C8_witness :
    math_operator false false (fun _ => .returns (some "42".data)) "q".data = "42".data ∧
    math_operator true false (fun _ => .raises "boom".data) "q".data =
      "Error in math operator: boom".data := by
  constructor
  · exact (claim_C8 false false (fun _ => .returns (some "42".data)) "q".data
      (some "42".data) []).1 rfl
  · have h := (claim_C8 true false (fun _ => .raises "boom".data) "q".data
      none "boom".data).2 rfl
    exact h.trans (by decide)

/-- C1: the claim fails on the code, which contradicts its own
documentation: modulo is in `SAFE_OPERATORS` and in `calculate`'s docstring
and `math_help`, and the evaluator computes `10 % 3 = 1`, but the
validation character class omits the percent sign, so `calculate "10 % 3"`
returns the invalid-characters error string instead of a numeric result. -/
theorem claim_C1 :
    calculate "10 % 3" = "Error: Expression contains invalid characters" ∧
    applyBin .mod (.int 10) (.int 3) = .ok (.int 1) ∧
    isMathChar '%' = false := by
  refine ⟨by decide, rfl, by decide⟩

/-- C4: every expression whose evaluation raises a division by zero makes
`calculate` return the distinct division-by-zero error string; the pipeline
is a total function, so no exception escapes the tool.  The witness
instantiates this at the input "1/0". -/
theorem claim_C4 (s : String) (clean m : List Char)
    (h0 : s.data.isEmpty = false)
    (h1 : validate_math_expression (calcNormalize s.data) = .ok clean)
    (h2 : safe_evalL clean = .error (.zeroDivErr m)) :
    calculate s = "Error: Division by zero is not allowed in mathematical expressions." := by
  simp only [calculate, calcL, calcLWith, h0, Bool.false_eq_true, if_false, h1, h2]

/-- Closed instance of the C4 theorem at the spec's example "1/0". -/
theorem claim_C4_witness :
    calculate "1/0" = "Error: Division by zero is not allowed in mathematical expressions." :=
  claim_C4 "1/0" "1/0".data "Division by zero in mathematical expression".data
    rfl rfl rfl

/-- C5 counterexample: this input contains characters outside the class
(brace, quote, colon), yet `calculate` does not reject it before
evaluation: the JSON normalization extracts the inner expression and the
evaluator runs, producing the success sentence rather than an error
string. -/
theorem claim_C5_counterexample :
    (∃ c ∈ "\x7b\"expression\": \"2+2\"\x7d".data, isMathChar c = false) ∧
    calculate "\x7b\"expression\": \"2+2\"\x7d" =
      "The calculation result is 4, as 2+2 = 4." := by
  exact ⟨by decide, by decide⟩

/-- C5 amended: rejection before evaluation holds for the expression as it
stands after the JSON normalization step: whenever that expression,
stripped, contains a character outside the class — or passes the class but
has differing parenthesis counts — `calculate` returns the corresponding
validation error string under every evaluator, so the expression evaluator
is never invoked on it. -/
theorem claim_C5 (s a : List Char)
    (h0 : s.isEmpty = false) (h1 : calcNormalize s = .str a)
    (h2 : (pyStrip a).all isMathChar = false ∨
          ((pyStrip a).all isMathChar = true ∧
           (pyStrip a).count lparC ≠ (pyStrip a).count rparC)) :
    ∀ evalF : List Char → Except PyErr PyVal,
      calcLWith evalF s = "Error: Expression contains invalid characters".data ∨
      calcLWith evalF s = "Error: Unbalanced parentheses in expression".data := by
  intro evalF
  have hstrip : (pyStrip a).isEmpty = false := by
    cases hs : (pyStrip a).isEmpty
    · rfl
    · exfalso
      have hnil : pyStrip a = [] := by
        cases hsa : pyStrip a with
        | nil => rfl
        | cons x xs => rw [hsa] at hs; simp at hs
      rw [hnil] at h2
      rcases h2 with h | h
      · simp at h
      · exact h.2 (by simp)
  have hane : a.isEmpty = false := by
    cases ha : a.isEmpty
    · rfl
    · exfalso
      have hnil : a = [] := by
        cases haa : a with
        | nil => rfl
        | cons x xs => rw [haa] at ha; simp at ha
      rw [hnil] at hstrip
      simp [pyStrip] at hstrip
  rcases h2 with h | ⟨hall, hcount⟩
  · left
    simp [calcLWith, h0, h1, validate_math_expression, hane, hstrip, h]
  · right
    simp [calcLWith, h0, h1, validate_math_expression, hane, hstrip, hall, hcount]

/-- Closed instance of the C5 amended theorem at input "2+$": the character
class rejects the dollar sign and the result is the validation error even
under an evaluator that would report success. -/
theorem claim_C5_witness :
    ("2+$".data.isEmpty = false ∧ calcNormalize "2+$".data = .str "2+$".data ∧
     (pyStrip "2+$".data).all isMathChar = false) ∧
    (calcLWith (fun _ => .ok (.int 999)) "2+$".data =
       "Error: Expression contains invalid characters".data ∨
     calcLWith (fun _ => .ok (.int 999)) "2+$".data =
       "Error: Unbalanced parentheses in expression".data) :=
  ⟨⟨rfl, rfl, by decide⟩,
    claim_C5 "2+$".data "2+$".data rfl rfl (Or.inl (by decide))
      (fun _ => .ok (.int 999))⟩

theorem isPrefixOf_append_self (l t : List Char) : l.isPrefixOf (l ++ t) = true := by
  induction l with
  | nil => simp [List.isPrefixOf]
  | cons c cs ih => simp [List.isPrefixOf, ih]

theorem containsSub_append (pre mid marker tail0 : List Char) (i : Nat)
    (hpre : pre.drop i = marker ++ tail0) (hi : i ≤ pre.length) :
    containsSub (pre ++ mid) marker = true := by
  unfold containsSub
  rw [List.any_eq_true]
  refine ⟨i, ?_, ?_⟩
  · rw [List.mem_range]
    simp only [List.length_append]
    omega
  · rw [List.drop_append_eq_append_drop, hpre, List.append_assoc]
    exact isPrefixOf_append_self _ _

/-- C9 (amended): for every location whose post-normalization stripped form
contains no comma and for which geocoding yields no result, the weather
tool returns the could-not-find-coordinates error string — which contains
the phrase "Could not find coordinates" — and, being a total function,
raises nothing. -/
theorem claim_C9 (geo : List Char → Option GeoInfo)
    (wapi : ℚ → ℚ → Except (List Char) (List Char)) (location a : List Char)
    (h0 : location.isEmpty = false) (h1 : weatherNormalize location = .str a)
    (h2 : (pyStrip a).contains ',' = false) (h3 : geo (pyStrip a) = none) :
    get_current_weather geo wapi location =
      "Error: Could not find coordinates for location '".data ++ (pyStrip a
        ++ "'. Please check the spelling or try a different location.".data) ∧
    containsSub (get_current_weather geo wapi location)
      "Could not find coordinates".data = true := by
  have hmain : get_current_weather geo wapi location =
      "Error: Could not find coordinates for location '".data ++ (pyStrip a
        ++ "'. Please check the spelling or try a different location.".data) := by
    have h2' : ¬ (',' ∈ pyStrip a) := by simpa using h2
    simp [get_current_weather, h0, h1, h2', h3]
  refine ⟨hmain, ?_⟩
  rw [hmain]
  exact containsSub_append _ _ _ " for location '".data 7 (by decide) (by decide)

/-- C9 counterexample: "Paris, France" is not in latitude,longitude
coordinate form, and a geocoder that resolves nothing yields no result for
it; yet the tool returns the invalid-coordinate-format error — the comma
routes the input down the coordinate-parsing path, geocoding is never
attempted — and that error does not contain "Could not find
coordinates". -/
theorem claim_C9_counterexample :
    specCoordForm "Paris, France".data = false ∧
    (fun _ : List Char => (none : Option GeoInfo)) "Paris, France".data = none ∧
    get_current_weather (fun _ => none) (fun _ _ => .ok "report".data)
      "Paris, France".data =
      "Error: Invalid coordinate format. Use 'latitude,longitude' (e.g., '52.52,13.41')".data ∧
    containsSub
      (get_current_weather (fun _ => none) (fun _ _ => .ok "report".data)
        "Paris, France".data)
      "Could not find coordinates".data = false := by
  refine ⟨by decide, rfl, by decide, by decide⟩

/-- Closed instance of the C9 amended theorem at the unresolvable location
"Nowhereville" with a geocoder that resolves nothing. -/
theorem claim_C9_witness :
    get_current_weather (fun _ => none) (fun _ _ => .ok "report".data)
      "Nowhereville".data =
      "Error: Could not find coordinates for location '".data
        ++ (pyStrip "Nowhereville".data
        ++ "'. Please check the spelling or try a different location.".data) ∧
    containsSub
      (get_current_weather (fun _ => none) (fun _ _ => .ok "report".data)
        "Nowhereville".data)
      "Could not find coordinates".data = true :=
  claim_C9 (fun _ => none) (fun _ _ => .ok "report".data) "Nowhereville".data
    "Nowhereville".data rfl rfl (by decide) rfl

theorem jsonTakeStr_closes (e rest : List Char)
    (he : ∀ c ∈ e, ¬ c = qmarkC ∧ ¬ c = bslashC) :
    jsonTakeStr (e ++ qmarkC :: rest) = some (e, rest) := by
  induction e with
  | nil => simp [jsonTakeStr]
  | cons c cs ih =>
    have hc := he c (by simp)
    simp [jsonTakeStr, hc.1, hc.2, ih (fun d hd => he d (by simp [hd]))]

theorem jsonParse_wrap (e : List Char)
    (he : ∀ c ∈ e, ¬ c = qmarkC ∧ ¬ c = bslashC) :
    jsonParseFlatObj (calcPrefix1 ++ (' ' :: qmarkC :: (e ++ [qmarkC, rbraceC]))) =
      some [("expression".data, .jstr e)] := by
  have hval : jsonTakeStr (e ++ qmarkC :: [rbraceC]) = some (e, [rbraceC]) :=
    jsonTakeStr_closes _ _ he
  simp +decide [jsonParseFlatObj, jsonSkipWs, jsonMembers, jsonTakeVal, calcPrefix1,
    jsonTakeStr, isJsonWs, hval]

theorem mathChar_ne (c : Char) (h : isMathChar c = true) :
    ¬ c = aposC ∧ ¬ c = qmarkC ∧ ¬ c = lbraceC ∧ ¬ c = bslashC := by
  refine ⟨?_, ?_, ?_, ?_⟩ <;> intro heq <;> rw [heq] at h <;> exact absurd h (by decide)

theorem pyReplaceApos_eq_self (l : List Char) (h : ∀ c ∈ l, ¬ c = aposC) :
    pyReplaceApos l = l := by
  induction l with
  | nil => rfl
  | cons c cs ih =>
    have hc : ¬ c = aposC := h c (by simp)
    have ih' := ih (fun d hd => h d (by simp [hd]))
    simp only [pyReplaceApos, List.map_cons] at ih' ⊢
    rw [if_neg hc, ih']

theorem calcNormalize_wrap (e : List Char) (hcls : e.all isMathChar = true) :
    calcNormalize (calcPrefix1 ++ (' ' :: qmarkC :: (e ++ [qmarkC, rbraceC]))) = .str e := by
  have hall : ∀ c ∈ e, isMathChar c = true := fun c hc => List.all_eq_true.mp hcls c hc
  have hapos : ∀ c ∈ (calcPrefix1 ++ (' ' :: qmarkC :: (e ++ [qmarkC, rbraceC]))),
      ¬ c = aposC := by
    intro c hc heq
    subst heq
    simp +decide [calcPrefix1] at hc
    exact (mathChar_ne aposC (hall aposC hc)).1 rfl
  have hrep := pyReplaceApos_eq_self _ hapos
  have hjson := jsonParse_wrap e (fun c hc =>
    ⟨(mathChar_ne c (hall c hc)).2.1, (mathChar_ne c (hall c hc)).2.2.2⟩)
  have hpre : calcPrefix1.isPrefixOf
      (calcPrefix1 ++ (' ' :: qmarkC :: (e ++ [qmarkC, rbraceC]))) = true :=
    isPrefixOf_append_self _ _
  simp +decide [calcNormalize, hpre, hrep, hjson, jsonLookupLast]

theorem jsonParse_wrapKey (key e : List Char)
    (hk : ∀ c ∈ key, ¬ c = qmarkC ∧ ¬ c = bslashC)
    (he : ∀ c ∈ e, ¬ c = qmarkC ∧ ¬ c = bslashC) :
    jsonParseFlatObj (lbraceC :: qmarkC ::
        (key ++ (qmarkC :: ':' :: (' ' :: qmarkC :: (e ++ [qmarkC, rbraceC]))))) =
      some [(key, .jstr e)] := by
  have hkey : jsonTakeStr (key ++ qmarkC ::
      (':' :: (' ' :: qmarkC :: (e ++ [qmarkC, rbraceC])))) =
      some (key, ':' :: (' ' :: qmarkC :: (e ++ [qmarkC, rbraceC]))) :=
    jsonTakeStr_closes _ _ hk
  have hval : jsonTakeStr (e ++ qmarkC :: [rbraceC]) = some (e, [rbraceC]) :=
    jsonTakeStr_closes _ _ he
  simp +decide [jsonParseFlatObj, jsonSkipWs, jsonMembers, jsonTakeVal,
    jsonTakeStr, isJsonWs, hkey, hval]

/-- C6 (amended): each tool attempts JSON extraction only when the raw
input starts with that tool's literal gate — `calculate` tests for the
exact texts `calcPrefix1`/`calcPrefix2`, `check_leap_year` only for a
leading brace, `get_current_weather` for its "location" prefixes — and an
input failing the gate is used as-is (the final three conjuncts).  When
the gate passes and extraction succeeds — here, for the canonical JSON
encoding of any nonempty value over the validation character class — each
tool returns exactly its bare-value result (the first three conjuncts). -/
theorem claim_C6
    (e : List Char) (hne : e.isEmpty = false) (hcls : e.all isMathChar = true)
    (api : List Char → Option Bool)
    (y : List Char) (hyne : y.isEmpty = false) (hycls : y.all isMathChar = true)
    (geo : List Char → Option GeoInfo)
    (wapi : ℚ → ℚ → Except (List Char) (List Char))
    (l : List Char) (hlne : l.isEmpty = false) (hlcls : l.all isMathChar = true)
    (s : List Char) (hs1 : calcPrefix1.isPrefixOf s = false)
    (hs2 : calcPrefix2.isPrefixOf s = false)
    (t : List Char) (ht : ¬ t.headD ' ' = lbraceC)
    (u : List Char) (hu1 : weatherPrefix1.isPrefixOf u = false)
    (hu2 : weatherPrefix2.isPrefixOf u = false) :
    calculate (String.mk (calcPrefix1 ++ (' ' :: qmarkC :: (e ++ [qmarkC, rbraceC])))) =
      calculate (String.mk e) ∧
    check_leap_year api (lbraceC :: qmarkC ::
        ("year".data ++ (qmarkC :: ':' :: (' ' :: qmarkC :: (y ++ [qmarkC, rbraceC]))))) =
      check_leap_year api y ∧
    get_current_weather geo wapi
        (weatherPrefix1 ++ (' ' :: qmarkC :: (l ++ [qmarkC, rbraceC]))) =
      get_current_weather geo wapi l ∧
    calcNormalize s = .str s ∧
    leapNormalize t = .strv t ∧
    weatherNormalize u = .str u := by
  refine ⟨?_, ?_, ?_, ?_, ?_, ?_⟩
  · -- calculate: canonical wrapping equals the bare expression
    have hwrapN := calcNormalize_wrap e hcls
    have heN : calcNormalize e = .str e := by
      cases e with
      | nil => simp at hne
      | cons c cs =>
        have hc : isMathChar c = true := List.all_eq_true.mp hcls c (by simp)
        have hb : (lbraceC == c) = false :=
          beq_eq_false_iff_ne.mpr (fun h => (mathChar_ne c hc).2.2.1 h.symm)
        have hp1 : calcPrefix1.isPrefixOf (c :: cs) = false := by
          show (lbraceC == c && _) = false
          rw [hb, Bool.false_and]
        have hp2 : calcPrefix2.isPrefixOf (c :: cs) = false := by
          show (lbraceC == c && _) = false
          rw [hb, Bool.false_and]
        simp [calcNormalize, hp1, hp2]
    have hwne : (calcPrefix1 ++ (' ' :: qmarkC :: (e ++ [qmarkC, rbraceC]))).isEmpty = false := rfl
    simp [calculate, calcL, calcLWith, hwrapN, heN, hne, hwne]
  · -- check_leap_year: canonical wrapping equals the bare year
    have hall : ∀ c ∈ y, isMathChar c = true := fun c hc => List.all_eq_true.mp hycls c hc
    have hparse := jsonParse_wrapKey "year".data y (by decide)
      (fun c hc => ⟨(mathChar_ne c (hall c hc)).2.1, (mathChar_ne c (hall c hc)).2.2.2⟩)
    have hparse' : jsonParseFlatObj (lbraceC :: qmarkC :: 'y' :: 'e' :: 'a' :: 'r' ::
        qmarkC :: ':' :: ' ' :: qmarkC :: (y ++ [qmarkC, rbraceC])) =
        some [("year".data, .jstr y)] := hparse
    have hwrap : leapNormalize (lbraceC :: qmarkC ::
        ("year".data ++ (qmarkC :: ':' :: (' ' :: qmarkC :: (y ++ [qmarkC, rbraceC]))))) =
        .strv y := by
      simp +decide [leapNormalize, hparse', jsonLookupLast]
    have hbare : leapNormalize y = .strv y := by
      cases y with
      | nil => simp at hyne
      | cons c cs =>
        have hc : isMathChar c = true := hall c (by simp)
        have hcb : ¬ c = lbraceC := (mathChar_ne c hc).2.2.1
        simp [leapNormalize, hcb]
    unfold check_leap_year
    rw [hwrap, hbare]
  · -- get_current_weather: canonical wrapping equals the bare location
    have hall : ∀ c ∈ l, isMathChar c = true := fun c hc => List.all_eq_true.mp hlcls c hc
    have hapos : ∀ c ∈ (weatherPrefix1 ++ (' ' :: qmarkC :: (l ++ [qmarkC, rbraceC]))),
        ¬ c = aposC := by
      intro c hc heq
      subst heq
      simp +decide [weatherPrefix1] at hc
      exact (mathChar_ne aposC (hall aposC hc)).1 rfl
    have hrep := pyReplaceApos_eq_self _ hapos
    have hparse : jsonParseFlatObj
        (weatherPrefix1 ++ (' ' :: qmarkC :: (l ++ [qmarkC, rbraceC]))) =
        some [("location".data, .jstr l)] :=
      jsonParse_wrapKey "location".data l (by decide)
        (fun c hc => ⟨(mathChar_ne c (hall c hc)).2.1, (mathChar_ne c (hall c hc)).2.2.2⟩)
    have hpre : weatherPrefix1.isPrefixOf
        (weatherPrefix1 ++ (' ' :: qmarkC :: (l ++ [qmarkC, rbraceC]))) = true :=
      isPrefixOf_append_self _ _
    have hwrap : weatherNormalize
        (weatherPrefix1 ++ (' ' :: qmarkC :: (l ++ [qmarkC, rbraceC]))) = .str l := by
      simp +decide [weatherNormalize, hpre, hrep, hparse, jsonLookupLast]
    have hbare : weatherNormalize l = .str l := by
      cases l with
      | nil => simp at hlne
      | cons c cs =>
        have hc : isMathChar c = true := hall c (by simp)
        have hb : (lbraceC == c) = false :=
          beq_eq_false_iff_ne.mpr (fun h => (mathChar_ne c hc).2.2.1 h.symm)
        have hp1 : weatherPrefix1.isPrefixOf (c :: cs) = false := by
          show (lbraceC == c && _) = false
          rw [hb, Bool.false_and]
        have hp2 : weatherPrefix2.isPrefixOf (c :: cs) = false := by
          show (lbraceC == c && _) = false
          rw [hb, Bool.false_and]
        simp [weatherNormalize, hp1, hp2]
    have hwwne : (weatherPrefix1 ++ (' ' :: qmarkC ::
        (l ++ [qmarkC, rbraceC]))).isEmpty = false := rfl
    unfold get_current_weather
    simp only [hwwne, hlne, Bool.false_eq_true, if_false]
    rw [hwrap, hbare]
  · simp [calcNormalize, hs1, hs2]
  · have ht' : ¬ t.head?.getD ' ' = lbraceC := by simpa using ht
    simp [leapNormalize, ht']
  · simp [weatherNormalize, hu1, hu2]

/-- Closed instance of the C6 amended theorem: the canonical JSON wrapping
of "2+2" for calculate, of "2020" for check_leap_year, and of "London" for
get_current_weather each give the same result as the bare value, and
"2+2", "2020", "London" themselves fail the respective gates and are used
as-is. -/
theorem claim_C6_witness :
    calculate (String.mk (calcPrefix1 ++ (' ' :: qmarkC :: ("2+2".data ++ [qmarkC, rbraceC])))) =
      calculate (String.mk "2+2".data) ∧
    check_leap_year (fun _ => some true) (lbraceC :: qmarkC ::
        ("year".data ++ (qmarkC :: ':' :: (' ' :: qmarkC :: ("2020".data ++ [qmarkC, rbraceC]))))) =
      check_leap_year (fun _ => some true) "2020".data ∧
    get_current_weather (fun _ => none) (fun _ _ => .ok "report".data)
        (weatherPrefix1 ++ (' ' :: qmarkC :: ("London".data ++ [qmarkC, rbraceC]))) =
      get_current_weather (fun _ => none) (fun _ _ => .ok "report".data) "London".data ∧
    calcNormalize "2+2".data = .str "2+2".data ∧
    leapNormalize "2020".data = .strv "2020".data ∧
    weatherNormalize "London".data = .str "London".data :=
  claim_C6 "2+2".data rfl (by decide) (fun _ => some true)
    "2020".data rfl (by decide) (fun _ => none) (fun _ _ => .ok "report".data)
    "London".data rfl (by decide) "2+2".data (by decide) (by decide)
    "2020".data (by decide) "London".data (by decide) (by decide)

/-- C6 counterexample: an input that IS a JSON-encoded object containing
field "expression" (note the space after the opening brace), for which
calculate does not extract the field — the literal prefix test fails — and
returns a validation error instead of the bare-value result the claim
requires. -/
theorem claim_C6_counterexample :
    specJsonStringField "expression".data "\x7b \"expression\": \"2+2\"\x7d".data =
      some "2+2".data ∧
    calculate "\x7b \"expression\": \"2+2\"\x7d" ≠ calculate "2+2" := by
  exact ⟨by decide, by decide⟩

end MAW
